import Mathlib

/-!
Shallow embedding of the authentication and session-token subsystem of the
bloodcare backend (auth controller, auth middleware, user schema, OTP utils),
together with proofs of the specified properties.

Modelling conventions:
* timestamps are `Nat` milliseconds (`Date.now()`);
* a JWT is modelled as its decoded content: payload id, signing secret,
  issue time and expiry — `jwt.sign` produces such a value, `jwt.verify`
  checks the secret and expiry (string equality of serialized tokens
  corresponds to structural equality of these records);
* bcrypt and sha256 are modelled as injective tag functions, which realises
  exactly the round-trip contract the code relies on
  (`compare(p, hash(p)) = true`, `compare(p, hash(q)) = false` for `p ≠ q`);
* the Mongo user collection is a list of user records plus a fresh-id
  counter; `updateOne`/`save` become pure record updates written back with
  `updateUser`;
* the in-memory OTP `Map` is an association list with `Map.get`/`set`/
  `delete` semantics;
* external effects (email delivery, `crypto.randomBytes`) enter as
  parameters (a success flag, the random string).
-/

deriving instance DecidableEq for Except

namespace BloodCare

/-- Account status enum of the user schema. -/
inductive Status where
  | active
  | inactive
  | suspended
  | banned
deriving DecidableEq, Repr

/-- A decoded JWT: payload `{ id }`, the secret it was signed with, issue
time and expiry (ms). Two tokens signed with the same payload, secret and
times serialize to the same string, hence `DecidableEq` models exact-string
comparison of tokens. -/
structure Jwt where
  id : Nat
  secret : String
  iat : Nat
  exp : Nat
deriving DecidableEq, Repr

/-- Signing secret `process.env.JWT_SECRET`. -/
def jwtSecret : String := "JWT_SECRET"

/-- Signing secret `process.env.JWT_REFRESH_SECRET`. -/
def jwtRefreshSecret : String := "JWT_REFRESH_SECRET"

/-- Access-token lifetime: `JWT_EXPIRE || '7d'`, in ms. -/
def jwtExpire : Nat := 7 * 24 * 60 * 60 * 1000

/-- Refresh-token lifetime: `JWT_REFRESH_EXPIRE || '30d'`, in ms. -/
def jwtRefreshExpire : Nat := 30 * 24 * 60 * 60 * 1000

/-- Models `jwt.sign({ id }, secret, { expiresIn: ttl })` at time `now`. -/
def jwtSign (payloadId : Nat) (secret : String) (now ttl : Nat) : Jwt :=
  { id := payloadId, secret := secret, iat := now, exp := now + ttl }

/-- Models `jwt.verify(token, secret)` at time `now`: returns the decoded id when
the secret matches and the token is unexpired, `none` when verification
throws (`JsonWebTokenError` / `TokenExpiredError`). -/
def jwtVerify (t : Jwt) (secret : String) (now : Nat) : Option Nat :=
  if t.secret = secret ∧ now < t.exp then some t.id else none

/-- Function `generateTokens(userId)` from the auth middleware: an access token
signed with `JWT_SECRET` and a refresh token signed with
`JWT_REFRESH_SECRET`. -/
def generateTokens (userId : Nat) (now : Nat) : Jwt × Jwt :=
  (jwtSign userId jwtSecret now jwtExpire,
   jwtSign userId jwtRefreshSecret now jwtRefreshExpire)

/-- bcrypt hashing (cost 12) modelled as an injective tag function; the code
only relies on the round-trip contract of `bcrypt.hash`/`bcrypt.compare`. -/
def bcryptHash (plain : String) : String := "bcrypt12$" ++ plain

/-- Models `bcrypt.compare(candidate, stored)`. -/
def bcryptCompare (candidate stored : String) : Bool :=
  stored == bcryptHash candidate

/-- Models `crypto.createHash('sha256').update(s).digest('hex')` as an
injective tag function. -/
def sha256Hex (s : String) : String := "sha256$" ++ s

/-- The user record (fields of the user schema that the auth subsystem reads
or writes; profile fields that no auth flow inspects are omitted). Numeric
defaults (`loginAttempts: 0`) stand in for a Mongo `$unset` field read back
through the schema default. -/
structure User where
  id : Nat
  name : String
  email : String
  phone : String
  /-- the stored bcrypt hash (the pre-save hook hashes before persistence) -/
  password : String
  status : Status
  phoneVerified : Bool
  emailVerified : Bool
  isVerified : Bool
  refreshTokens : List Jwt
  passwordResetToken : Option String
  passwordResetExpires : Option Nat
  loginAttempts : Nat
  lockUntil : Option Nat
  lastLogin : Option Nat
deriving DecidableEq, Repr

/-- Virtual `isLocked`: `!!(this.lockUntil && this.lockUntil > Date.now())`. -/
def isLocked (u : User) (now : Nat) : Bool :=
  match u.lockUntil with
  | some l => now < l
  | none => false

/-- Test `this.lockUntil && this.lockUntil < Date.now()` — a lock that has lapsed. -/
def lockLapsed (u : User) (now : Nat) : Bool :=
  match u.lockUntil with
  | some l => l < now
  | none => false

/-- Schema method `incLoginAttempts`: if a previous lock has lapsed, `$unset`
both counters; otherwise `$inc` the attempt counter and, when the
post-increment count reaches 5 on an unlocked account, `$set` a 2-hour lock. -/
def incLoginAttempts (u : User) (now : Nat) : User :=
  if lockLapsed u now then
    { u with lockUntil := none, loginAttempts := 0 }
  else if u.loginAttempts + 1 ≥ 5 ∧ isLocked u now = false then
    { u with loginAttempts := u.loginAttempts + 1,
             lockUntil := some (now + 2 * 60 * 60 * 1000) }
  else
    { u with loginAttempts := u.loginAttempts + 1 }

/-- Schema method `resetLoginAttempts`: `$unset` both counters. -/
def resetLoginAttempts (u : User) : User :=
  { u with loginAttempts := 0, lockUntil := none }

/-- The user collection plus the id generator for newly created documents. -/
structure DB where
  users : List User
  nextId : Nat
deriving Repr

/-- Models `User.findById(uid)`. -/
def findById (db : DB) (uid : Nat) : Option User :=
  db.users.find? (fun u => u.id == uid)

/-- Does the optional query field match the stored value (a `$or` branch)? -/
def optMatches (o : Option String) (v : String) : Bool :=
  match o with
  | some s => s == v
  | none => false

/-- Models `User.findOne({ $or: [{ email }, { phone }] })`. -/
def findByEmailOrPhone (db : DB) (email phone : Option String) : Option User :=
  db.users.find? (fun u => optMatches email u.email || optMatches phone u.phone)

/-- Persist a mutated document: replace the stored record(s) with that id. -/
def updateUser (db : DB) (uid : Nat) (v : User) : DB :=
  { db with users := db.users.map (fun u => if u.id == uid then v else u) }

/-- Models `AppError(message, statusCode)` from the error-handler middleware. -/
structure AppError where
  message : String
  statusCode : Nat
deriving DecidableEq, Repr

def invalidCredentialsError : AppError := ⟨"Invalid credentials", 401⟩
def accountLockedError : AppError :=
  ⟨"Account temporarily locked due to multiple failed login attempts", 423⟩
def accountSuspendedError : AppError :=
  ⟨"Account has been suspended. Please contact support.", 401⟩
def refreshTokenRequiredError : AppError := ⟨"Refresh token is required", 401⟩
def invalidRefreshTokenError : AppError := ⟨"Invalid refresh token", 401⟩
def userExistsError : AppError := ⟨"User already exists with this email or phone", 400⟩
def noUserWithEmailError : AppError := ⟨"No user found with this email address", 404⟩
def emailSendError : AppError := ⟨"There was an error sending the email. Try again later.", 500⟩
def passwordsMismatchError : AppError := ⟨"Passwords do not match", 400⟩
def resetTokenInvalidError : AppError := ⟨"Token is invalid or has expired", 400⟩
def currentPasswordIncorrectError : AppError := ⟨"Current password is incorrect", 400⟩
def invalidOTPFormatError : AppError := ⟨"Invalid OTP format", 400⟩
def userNotFoundError : AppError := ⟨"User not found", 404⟩
def internalError : AppError := ⟨"Internal server error", 500⟩

/-- Input fields of `POST /auth/register` that the auth logic reads
(profile fields — dateOfBirth, gender, bloodGroup, location, isDonor,
weight — are carried through to the document unchanged and are omitted
since no auth flow inspects them). -/
structure RegisterInput where
  name : String
  email : String
  phone : String
  password : String
deriving DecidableEq, Repr

namespace AuthController

/-- The document `register` persists: the request fields, the bcrypt-hashed
password (pre-save hook), the schema defaults, and the freshly minted
refresh token pushed before the save. -/
def regUser (db : DB) (now : Nat) (inp : RegisterInput) : User :=
  { id := db.nextId, name := inp.name, email := inp.email, phone := inp.phone,
    password := bcryptHash inp.password, status := Status.active,
    phoneVerified := false, emailVerified := false, isVerified := false,
    refreshTokens := [(generateTokens db.nextId now).2], passwordResetToken := none,
    passwordResetExpires := none, loginAttempts := 0, lockUntil := none,
    lastLogin := none }

/-- Controller `register`: reject when a user with that email or
phone already exists, else create the document (password hashed by the
pre-save hook), issue tokens, push the refresh token and persist. -/
def register (db : DB) (now : Nat) (inp : RegisterInput) :
    Except AppError (User × Jwt × Jwt) × DB :=
  if db.users.any (fun u => u.email == inp.email || u.phone == inp.phone) then
    (Except.error userExistsError, db)
  else
    (Except.ok (regUser db now inp, (generateTokens db.nextId now).1,
       (generateTokens db.nextId now).2),
     { users := db.users ++ [regUser db now inp], nextId := db.nextId + 1 })

/-- Controller `login`: look up by email or phone with sensitive
fields selected; on missing user or failed password comparison, record a
failed attempt (when the user exists) and fail `Invalid credentials` (401);
then check the lock (423) and the status (401); on success clear the
attempt counters when nonzero, issue tokens, append the refresh token, set
`lastLogin` and persist. -/
def login (db : DB) (now : Nat) (email phone : Option String) (password : String) :
    Except AppError (Jwt × Jwt) × DB :=
  match findByEmailOrPhone db email phone with
  | none => (Except.error invalidCredentialsError, db)
  | some u =>
    if bcryptCompare password u.password = false then
      (Except.error invalidCredentialsError, updateUser db u.id (incLoginAttempts u now))
    else if isLocked u now then
      (Except.error accountLockedError, db)
    else if u.status ≠ Status.active then
      (Except.error accountSuspendedError, db)
    else
      let u1 := if u.loginAttempts ≠ 0 then resetLoginAttempts u else u
      let toks := generateTokens u.id now
      let u2 := { u1 with refreshTokens := u1.refreshTokens ++ [toks.2],
                          lastLogin := some now }
      (Except.ok (toks.1, toks.2), updateUser db u.id u2)

/-- Controller `refreshToken`: require the token, verify it against
the refresh secret (any throw becomes `Invalid refresh token`), look up the
decoded user with `+refreshTokens`; fail unless the presented token is a
member of the stored collection; otherwise mint a new pair, filter the old
token out, push the new one and persist. -/
def refreshToken (db : DB) (now : Nat) (token : Option Jwt) :
    Except AppError (Jwt × Jwt) × DB :=
  match token with
  | none => (Except.error refreshTokenRequiredError, db)
  | some t =>
    match jwtVerify t jwtRefreshSecret now with
    | none => (Except.error invalidRefreshTokenError, db)
    | some decodedId =>
      match findById db decodedId with
      | none => (Except.error invalidRefreshTokenError, db)
      | some u =>
        if t ∈ u.refreshTokens then
          let toks := generateTokens u.id now
          let u2 := { u with refreshTokens :=
            (u.refreshTokens.filter (fun x => x ≠ t)) ++ [toks.2] }
          (Except.ok (toks.1, toks.2), updateUser db u.id u2)
        else
          (Except.error invalidRefreshTokenError, db)

/-- Controller `forgotPassword`: find the user by email (404 when
absent); store the sha256 hash of a fresh random token plus a 10-minute
expiry and persist; attempt delivery (`ok`): on failure clear both reset
fields, persist again and fail with a 500. `rawToken` stands for
`crypto.randomBytes(32).toString('hex')`. -/
def forgotPassword (db : DB) (now : Nat) (email rawToken : String) (ok : Bool) :
    Except AppError Unit × DB :=
  match db.users.find? (fun u => u.email == email) with
  | none => (Except.error noUserWithEmailError, db)
  | some u =>
    let u1 := { u with passwordResetToken := some (sha256Hex rawToken),
                       passwordResetExpires := some (now + 10 * 60 * 1000) }
    let db1 := updateUser db u.id u1
    if ok then
      (Except.ok (), db1)
    else
      let u2 := { u1 with passwordResetToken := none, passwordResetExpires := none }
      (Except.error emailSendError, updateUser db1 u.id u2)

/-- The `findOne` filter of `resetPassword`: stored reset-token hash equals
the hash of the presented raw token and the expiry is still future. -/
def resetLookup (hashedToken : String) (now : Nat) (u : User) : Bool :=
  u.passwordResetToken == some hashedToken &&
    (match u.passwordResetExpires with
     | some e => now < e
     | none => false)

/-- Controller `resetPassword`: 400 when the two password fields
differ; look up by hashed token and future expiry (400 when absent); set
the new password (hashed by the pre-save hook), clear the reset fields,
clear `refreshTokens`, persist; then issue a fresh pair, push its refresh
token and persist again. -/
def resetPassword (db : DB) (now : Nat) (rawToken password confirmPassword : String) :
    Except AppError (Jwt × Jwt) × DB :=
  if password ≠ confirmPassword then
    (Except.error passwordsMismatchError, db)
  else
    match db.users.find? (resetLookup (sha256Hex rawToken) now) with
    | none => (Except.error resetTokenInvalidError, db)
    | some u =>
      let u1 := { u with password := bcryptHash password,
                         passwordResetToken := none,
                         passwordResetExpires := none,
                         refreshTokens := [] }
      let db1 := updateUser db u.id u1
      let toks := generateTokens u.id now
      let u2 := { u1 with refreshTokens := u1.refreshTokens ++ [toks.2] }
      (Except.ok (toks.1, toks.2), updateUser db1 u.id u2)

/-- Controller `changePassword`: reload the authenticated user with
`+password` (an absent document surfaces as a 500 through the global error
handler); 400 when the current password fails comparison; set the new
password, clear `refreshTokens`, persist; issue a fresh pair, push its
refresh token and persist again. -/
def changePassword (db : DB) (now : Nat) (uid : Nat) (currentPassword newPassword : String) :
    Except AppError (Jwt × Jwt) × DB :=
  match findById db uid with
  | none => (Except.error internalError, db)
  | some u =>
    if bcryptCompare currentPassword u.password = false then
      (Except.error currentPasswordIncorrectError, db)
    else
      let u1 := { u with password := bcryptHash newPassword, refreshTokens := [] }
      let db1 := updateUser db u.id u1
      let toks := generateTokens u.id now
      let u2 := { u1 with refreshTokens := u1.refreshTokens ++ [toks.2] }
      (Except.ok (toks.1, toks.2), updateUser db1 u.id u2)

/-- The three verification flags returned by `verifyOTP`. -/
structure VerifyFlags where
  phoneVerified : Bool
  emailVerified : Bool
  isVerified : Bool
deriving DecidableEq, Repr

/-- Controller `verifyOTP`: reject a missing code or one whose
length is not 6 (`!otp || otp.length !== 6` — no digit check and no call
into the OTP store); 404 when no user has that phone; when `type` is
`'phone'` set `phoneVerified`; derive `isVerified`; persist; return the
flags. -/
def verifyOTP (db : DB) (phone : String) (otp : Option String) (vtype : String) :
    Except AppError VerifyFlags × DB :=
  match otp with
  | none => (Except.error invalidOTPFormatError, db)
  | some code =>
    if code.length ≠ 6 then
      (Except.error invalidOTPFormatError, db)
    else
      match db.users.find? (fun u => u.phone == phone) with
      | none => (Except.error userNotFoundError, db)
      | some u =>
        let u1 := if vtype = "phone" then { u with phoneVerified := true } else u
        let u2 := if u1.phoneVerified && u1.emailVerified then
                    { u1 with isVerified := true }
                  else u1
        (Except.ok ⟨u2.phoneVerified, u2.emailVerified, u2.isVerified⟩,
         updateUser db u.id u2)

end AuthController

namespace OtpUtil

/-- A stored OTP record: code, absolute expiry (ms), attempt counter and
the attempt bound. -/
structure OtpEntry where
  otp : String
  expirationTime : Nat
  attempts : Nat
  maxAttempts : Nat
deriving DecidableEq, Repr

/-- The in-memory `otpStorage` `Map`, as an association list keyed by the
identifier. -/
abbrev OtpStore := List (String × OtpEntry)

/-- Models `otpStorage.get(k)`. -/
def getEntry (s : OtpStore) (k : String) : Option OtpEntry :=
  (s.find? (fun p => p.1 == k)).map (fun p => p.2)

/-- Models `otpStorage.set(k, v)` — replaces any record under the same key. -/
def setEntry (s : OtpStore) (k : String) (v : OtpEntry) : OtpStore :=
  (k, v) :: s.filter (fun p => p.1 ≠ k)

/-- Models `otpStorage.delete(k)`. -/
def deleteEntry (s : OtpStore) (k : String) : OtpStore :=
  s.filter (fun p => p.1 ≠ k)

/-- Function `storeOTP(identifier, otp, expirationMinutes)` at time `now`: store the
code with `now + expirationMinutes` minutes of lifetime, zero attempts and
a bound of 3. The call also schedules a `setTimeout` cleanup that fires
`expirationMinutes * 60 * 1000 + 1000` ms later; that callback is modelled
by `sweepOTP`, and `storeOTPAsSeenAt` gives the store as a later observer
sees it once the timer may have fired. -/
def storeOTP (s : OtpStore) (identifier otp : String) (expirationMinutes now : Nat) : OtpStore :=
  setEntry s identifier
    { otp := otp, expirationTime := now + expirationMinutes * 60 * 1000,
      attempts := 0, maxAttempts := 3 }

/-- The `setTimeout` callback scheduled by `storeOTP`, firing at `fireTime`:
if a record is still stored under the identifier and it is expired at that
moment, delete it; otherwise leave the store unchanged. -/
def sweepOTP (s : OtpStore) (identifier : String) (fireTime : Nat) : OtpStore :=
  match getEntry s identifier with
  | some stored =>
    if stored.expirationTime < fireTime then deleteEntry s identifier else s
  | none => s

/-- The store an observer at time `t` sees after `storeOTP` at time `now`,
when no other operation intervenes: before the scheduled cleanup fires
(`now + expirationMinutes * 60 * 1000 + 1000`) it is the stored record
itself; from the fire time on, the sweep's effect is visible. -/
def storeOTPAsSeenAt (s : OtpStore) (identifier otp : String)
    (expirationMinutes now t : Nat) : OtpStore :=
  if t < now + expirationMinutes * 60 * 1000 + 1000 then
    storeOTP s identifier otp expirationMinutes now
  else
    sweepOTP (storeOTP s identifier otp expirationMinutes now) identifier
      (now + expirationMinutes * 60 * 1000 + 1000)

/-- The result object of `verifyOTP`. -/
structure OtpResult where
  success : Bool
  message : String
  attemptsLeft : Option Nat
deriving DecidableEq, Repr

/-- Function `verifyOTP(identifier, providedOTP)` at time `now`, returning the result
object together with the updated store: not-found; expired (purge); attempts
already at the bound (purge); otherwise increment the attempt counter in
place, then succeed on match (purge) or report the remaining attempts. -/
def verifyOTP (s : OtpStore) (identifier providedOTP : String) (now : Nat) :
    OtpResult × OtpStore :=
  match getEntry s identifier with
  | none => (⟨false, "OTP not found or expired", none⟩, s)
  | some stored =>
    if stored.expirationTime < now then
      (⟨false, "OTP has expired", none⟩, deleteEntry s identifier)
    else if stored.attempts ≥ stored.maxAttempts then
      (⟨false, "Maximum verification attempts exceeded", none⟩, deleteEntry s identifier)
    else
      let stored1 := { stored with attempts := stored.attempts + 1 }
      if stored1.otp == providedOTP then
        (⟨true, "OTP verified successfully", none⟩, deleteEntry s identifier)
      else
        (⟨false, "Invalid OTP", some (stored1.maxAttempts - stored1.attempts)⟩,
         setEntry s identifier stored1)

/-- Function `validateOTPFormat(otp, length)`: falsy, non-string-of-right-length or
non-digit codes are rejected (`/^\d+$/`). -/
def validateOTPFormat (otp : Option String) (len : Nat) : Bool :=
  match otp with
  | none => false
  | some s =>
    if s.isEmpty then false
    else if s.length ≠ len then false
    else s.data.all Char.isDigit

end OtpUtil

/-- One schema field together with whether it carries `select: false`. -/
structure FieldDef where
  fieldName : String
  selectFalse : Bool
deriving DecidableEq, Repr

/-- The user schema's projection-relevant fields: `password` is declared
with `select: false`; `refreshTokens` (and every other field) is not. -/
def userSchemaFields : List FieldDef :=
  [⟨"name", false⟩, ⟨"email", false⟩, ⟨"phone", false⟩, ⟨"password", true⟩,
   ⟨"dateOfBirth", false⟩, ⟨"gender", false⟩, ⟨"bloodGroup", false⟩,
   ⟨"location", false⟩, ⟨"isDonor", false⟩, ⟨"isAvailable", false⟩,
   ⟨"weight", false⟩, ⟨"role", false⟩, ⟨"isVerified", false⟩,
   ⟨"emailVerified", false⟩, ⟨"phoneVerified", false⟩,
   ⟨"refreshTokens", false⟩, ⟨"passwordResetToken", false⟩,
   ⟨"passwordResetExpires", false⟩, ⟨"loginAttempts", false⟩,
   ⟨"lockUntil", false⟩, ⟨"lastLogin", false⟩, ⟨"status", false⟩]

/-- Whether a default-mode query (no `+field` selection) returns the field:
exactly the fields without `select: false`. -/
def includedByDefault (field : String) : Bool :=
  match userSchemaFields.find? (fun f => f.fieldName == field) with
  | some f => !f.selectFalse
  | none => false

/-- Whether a query with an explicit `+field` selection returns the field. -/
def includedWithPlusSelect (field : String) : Bool :=
  (userSchemaFields.find? (fun f => f.fieldName == field)).isSome

/-- Pairwise uniqueness of emails and phones across the collection. -/
def UniqueAccounts (db : DB) : Prop :=
  db.users.Pairwise (fun a b => a.email ≠ b.email ∧ a.phone ≠ b.phone)

/-! ## Concrete sample state used by witnesses and counterexamples -/

/-- Concrete account used to witness the OTP-controller divergence: a user
whose phone is `01712345678` and whose phone is not yet verified. -/
def otpSampleUser : User :=
  { id := 1, name := "Rahim", email := "a@x.com", phone := "01712345678",
    password := bcryptHash "Secret123", status := Status.active,
    phoneVerified := false, emailVerified := false, isVerified := false,
    refreshTokens := [], passwordResetToken := none, passwordResetExpires := none,
    loginAttempts := 0, lockUntil := none, lastLogin := none }

/-- Concrete database holding only `otpSampleUser`. -/
def otpSampleDb : DB := ⟨[otpSampleUser], 2⟩

/-- Concrete account used by the lockout counterexample: zero failed
attempts, no lock, active, correct password `Secret123`. -/
def lockoutSampleUser : User :=
  { id := 1, name := "Karim", email := "k@x.com", phone := "01812345678",
    password := bcryptHash "Secret123", status := Status.active,
    phoneVerified := false, emailVerified := false, isVerified := false,
    refreshTokens := [], passwordResetToken := none, passwordResetExpires := none,
    loginAttempts := 0, lockUntil := none, lastLogin := none }

/-- Concrete database holding only `lockoutSampleUser`. -/
def lockoutSampleDb : DB := ⟨[lockoutSampleUser], 2⟩

/-- The database state after five consecutive wrong-password logins against
`lockoutSampleDb` at times 1..5. -/
def lockoutDbAfter5 : DB :=
  (AuthController.login
    (AuthController.login
      (AuthController.login
        (AuthController.login
          (AuthController.login lockoutSampleDb 1 (some "k@x.com") none "WrongPass").2
          2 (some "k@x.com") none "WrongPass").2
        3 (some "k@x.com") none "WrongPass").2
      4 (some "k@x.com") none "WrongPass").2
    5 (some "k@x.com") none "WrongPass").2

/-- Concrete account used by the enumeration-resistance witness. -/
def c4SampleUser : User :=
  { id := 1, name := "Salma", email := "c4@x.com", phone := "01911111111",
    password := bcryptHash "Secret123", status := Status.active,
    phoneVerified := false, emailVerified := false, isVerified := false,
    refreshTokens := [], passwordResetToken := none, passwordResetExpires := none,
    loginAttempts := 0, lockUntil := none, lastLogin := none }

/-- Concrete database holding only `c4SampleUser`. -/
def c4SampleDb : DB := ⟨[c4SampleUser], 2⟩

/-- A refresh token minted for account 1 at time 0, used by the rotation
witness. -/
def c1Token : Jwt := jwtSign 1 jwtRefreshSecret 0 jwtRefreshExpire

/-- Concrete account holding `c1Token` as its only session, used by the
rotation witness. -/
def c1SampleUser : User :=
  { id := 1, name := "Nadia", email := "c1@x.com", phone := "01922222222",
    password := bcryptHash "Secret123", status := Status.active,
    phoneVerified := false, emailVerified := false, isVerified := false,
    refreshTokens := [c1Token], passwordResetToken := none,
    passwordResetExpires := none, loginAttempts := 0, lockUntil := none,
    lastLogin := none }

/-- Concrete database holding only `c1SampleUser`. -/
def c1SampleDb : DB := ⟨[c1SampleUser], 2⟩

/-- A refresh token minted for account 1 at time 0, used as the stale
session in the password-change witness. -/
def c2OldToken : Jwt := jwtSign 1 jwtRefreshSecret 0 jwtRefreshExpire

/-- Concrete account with one outstanding session and a pending password
reset, used by the password-change witness. -/
def c2SampleUser : User :=
  { id := 1, name := "Farid", email := "c2@x.com", phone := "01933333333",
    password := bcryptHash "Secret123", status := Status.active,
    phoneVerified := false, emailVerified := false, isVerified := false,
    refreshTokens := [c2OldToken],
    passwordResetToken := some (sha256Hex "resettok"),
    passwordResetExpires := some 1000000, loginAttempts := 0,
    lockUntil := none, lastLogin := none }

/-- Concrete database holding only `c2SampleUser`. -/
def c2SampleDb : DB := ⟨[c2SampleUser], 2⟩

/-- Concrete account used by the forgot-password witness. -/
def c9SampleUser : User :=
  { id := 1, name := "Hasan", email := "c9@x.com", phone := "01944444444",
    password := bcryptHash "Secret123", status := Status.active,
    phoneVerified := false, emailVerified := false, isVerified := false,
    refreshTokens := [], passwordResetToken := none,
    passwordResetExpires := none, loginAttempts := 0, lockUntil := none,
    lastLogin := none }

/-- Concrete database holding only `c9SampleUser`. -/
def c9SampleDb : DB := ⟨[c9SampleUser], 2⟩

/-- The OTP record for `code` generated at `t0` (10-minute TTL) after `a`
failed attempts. -/
def otpEntryAfter (code : String) (t0 a : Nat) : OtpUtil.OtpEntry :=
  { otp := code, expirationTime := t0 + 10 * 60 * 1000, attempts := a,
    maxAttempts := 3 }

/-- The OTP store right after `storeOTP`. -/
def otpChain0 (s : OtpUtil.OtpStore) (id code : String) (t0 : Nat) : OtpUtil.OtpStore :=
  OtpUtil.storeOTP s id code 10 t0

/-- The OTP store after one failed verification attempt. -/
def otpChain1 (s : OtpUtil.OtpStore) (id code : String) (t0 : Nat) : OtpUtil.OtpStore :=
  OtpUtil.setEntry (otpChain0 s id code t0) id (otpEntryAfter code t0 1)

/-- The OTP store after two failed verification attempts. -/
def otpChain2 (s : OtpUtil.OtpStore) (id code : String) (t0 : Nat) : OtpUtil.OtpStore :=
  OtpUtil.setEntry (otpChain1 s id code t0) id (otpEntryAfter code t0 2)

/-- The OTP store after three failed verification attempts. -/
def otpChain3 (s : OtpUtil.OtpStore) (id code : String) (t0 : Nat) : OtpUtil.OtpStore :=
  OtpUtil.setEntry (otpChain2 s id code t0) id (otpEntryAfter code t0 3)

/-! ## Store lemmas -/

theorem findById_id_eq {db : DB} {uid : Nat} {u : User}
    (h : findById db uid = some u) : u.id = uid := by
  unfold findById at h
  have := List.find?_some h
  simpa using this

theorem findById_mem {db : DB} {uid : Nat} {u : User}
    (h : findById db uid = some u) : u ∈ db.users := by
  unfold findById at h
  exact List.mem_of_find?_eq_some h

theorem findById_isSome_of_mem {db : DB} {u : User} (h : u ∈ db.users) :
    (findById db u.id).isSome := by
  unfold findById
  rw [List.find?_isSome]
  exact ⟨u, h, by simp⟩

theorem find?_map_update (uid : Nat) (v : User) (hv : v.id = uid) (l : List User) :
    (l.find? (fun u => u.id == uid)).isSome = true →
      (l.map (fun u => if u.id == uid then v else u)).find? (fun u => u.id == uid) = some v := by
  induction l with
  | nil => intro hl; simp [List.find?] at hl
  | cons a l ih =>
    intro hl
    rw [List.map_cons]
    by_cases ha : a.id = uid
    · rw [show (if (a.id == uid) = true then v else a) = v by simp [ha]]
      exact List.find?_cons_of_pos _ (by simp [hv])
    · rw [show (if (a.id == uid) = true then v else a) = a by simp [ha]]
      rw [List.find?_cons_of_neg _ (by simp [ha])]
      apply ih
      rw [List.find?_cons_of_neg _ (by simp [ha])] at hl
      exact hl

theorem findById_updateUser {db : DB} {uid : Nat} {v : User}
    (hv : v.id = uid) (h : (findById db uid).isSome) :
    findById (updateUser db uid v) uid = some v := by
  unfold findById at h ⊢
  unfold updateUser
  exact find?_map_update uid v hv db.users h

theorem updateUser_singleton (u v : User) (nid : Nat) :
    updateUser ⟨[u], nid⟩ u.id v = ⟨[v], nid⟩ := by
  unfold updateUser
  simp

theorem findByEmailOrPhone_singleton (u : User) (nid : Nat) :
    findByEmailOrPhone ⟨[u], nid⟩ (some u.email) none = some u := by
  simp [findByEmailOrPhone, optMatches, List.find?]

theorem incLoginAttempts_below {u : User} (now : Nat) (hlock : u.lockUntil = none)
    (h5 : u.loginAttempts + 1 < 5) :
    incLoginAttempts u now = { u with loginAttempts := u.loginAttempts + 1 } := by
  have hl : lockLapsed u now = false := by simp [lockLapsed, hlock]
  unfold incLoginAttempts
  rw [hl]
  rw [if_neg (by simp)]
  rw [if_neg (fun h => absurd h.1 (by omega))]

theorem incLoginAttempts_fifth {u : User} (now : Nat) (hlock : u.lockUntil = none)
    (h5 : u.loginAttempts + 1 ≥ 5) :
    incLoginAttempts u now =
      { u with loginAttempts := u.loginAttempts + 1,
               lockUntil := some (now + 2 * 60 * 60 * 1000) } := by
  have hl : lockLapsed u now = false := by simp [lockLapsed, hlock]
  have hi : isLocked u now = false := by simp [isLocked, hlock]
  unfold incLoginAttempts
  rw [hl]
  rw [if_neg (by simp)]
  rw [if_pos ⟨h5, hi⟩]

theorem incLoginAttempts_while_locked {u : User} (now l : Nat)
    (hlock : u.lockUntil = some l) (hfut : now < l) :
    incLoginAttempts u now = { u with loginAttempts := u.loginAttempts + 1 } := by
  have hl : lockLapsed u now = false := by
    simp [lockLapsed, hlock]
    omega
  have hi : isLocked u now = true := by
    simp [isLocked, hlock]
    omega
  unfold incLoginAttempts
  rw [hl]
  rw [if_neg (by simp)]
  rw [if_neg (fun h => by rw [hi] at h; exact absurd h.2 (by simp))]

theorem jwtVerify_some {t : Jwt} {secret : String} {now : Nat} {did : Nat}
    (hv : jwtVerify t secret now = some did) : did = t.id := by
  unfold jwtVerify at hv
  split at hv
  · exact (Option.some_inj.mp hv).symm
  · cases hv

theorem refreshToken_fails_of_not_mem {db : DB} {t : Jwt} {u : User} {now : Nat}
    (hfind : findById db t.id = some u) (hnot : t ∉ u.refreshTokens) :
    (AuthController.refreshToken db now (some t)).1 =
      Except.error invalidRefreshTokenError := by
  unfold AuthController.refreshToken
  cases hv : jwtVerify t jwtRefreshSecret now with
  | none => simp only [hv]
  | some did =>
    have hdid : did = t.id := jwtVerify_some hv
    subst hdid
    simp only [hv, hfind]
    rw [if_neg hnot]

theorem refreshToken_succeeds_of_mem {db : DB} {t : Jwt} {u : User} {now : Nat}
    (hsig : t.secret = jwtRefreshSecret) (hexp : now < t.exp)
    (hfind : findById db t.id = some u) (hmem : t ∈ u.refreshTokens) :
    AuthController.refreshToken db now (some t) =
      (Except.ok (generateTokens u.id now),
       updateUser db u.id { u with refreshTokens :=
         (u.refreshTokens.filter (fun x => x ≠ t)) ++ [(generateTokens u.id now).2] }) := by
  have hver : jwtVerify t jwtRefreshSecret now = some t.id := by
    unfold jwtVerify
    rw [if_pos ⟨hsig, hexp⟩]
  unfold AuthController.refreshToken
  simp only [hver, hfind]
  rw [if_pos hmem]

theorem login_singleton_wrong (u : User) (nid now : Nat) (w : String)
    (hw : bcryptCompare w u.password = false) :
    AuthController.login ⟨[u], nid⟩ now (some u.email) none w =
      (Except.error invalidCredentialsError, ⟨[incLoginAttempts u now], nid⟩) := by
  unfold AuthController.login
  simp only [findByEmailOrPhone_singleton]
  rw [if_pos hw, updateUser_singleton]

theorem login_singleton_locked (u : User) (nid now : Nat) (pw : String)
    (hpw : bcryptCompare pw u.password = true) (hl : isLocked u now = true) :
    AuthController.login ⟨[u], nid⟩ now (some u.email) none pw =
      (Except.error accountLockedError, ⟨[u], nid⟩) := by
  unfold AuthController.login
  simp only [findByEmailOrPhone_singleton]
  rw [if_neg (by simp [hpw]), if_pos hl]

theorem login_singleton_correct_reset (u : User) (nid now : Nat) (pw : String)
    (hpw : bcryptCompare pw u.password = true) (hnl : isLocked u now = false)
    (hst : u.status = Status.active) (hAtt : u.loginAttempts ≠ 0) :
    AuthController.login ⟨[u], nid⟩ now (some u.email) none pw =
      (Except.ok (generateTokens u.id now),
       ⟨[{ u with loginAttempts := 0, lockUntil := none,
                  refreshTokens := u.refreshTokens ++ [(generateTokens u.id now).2],
                  lastLogin := some now }], nid⟩) := by
  unfold AuthController.login
  simp only [findByEmailOrPhone_singleton]
  rw [if_neg (by simp [hpw]), if_neg (by simp [hnl]), if_neg (by simp [hst])]
  simp only [if_pos hAtt, updateUser_singleton]
  rfl

namespace OtpUtil

theorem getEntry_setEntry_same (s : OtpStore) (k : String) (v : OtpEntry) :
    getEntry (setEntry s k v) k = some v := by
  simp [getEntry, setEntry, List.find?_cons]

theorem find?_filter_ne (s : OtpStore) (k : String) :
    (s.filter (fun p => p.1 ≠ k)).find? (fun p => p.1 == k) = none := by
  induction s with
  | nil => rfl
  | cons a s ih =>
    rw [List.filter_cons]
    by_cases h : a.1 = k
    · rw [if_neg (by simp [h])]
      exact ih
    · rw [if_pos (by simp [h])]
      rw [List.find?_cons_of_neg _ (by simp [h])]
      exact ih

theorem getEntry_deleteEntry_same (s : OtpStore) (k : String) :
    getEntry (deleteEntry s k) k = none := by
  simp [getEntry, deleteEntry, find?_filter_ne]

theorem verifyOTP_run_not_found {s : OtpStore} {id w : String} {t : Nat}
    (hget : getEntry s id = none) :
    verifyOTP s id w t = (⟨false, "OTP not found or expired", none⟩, s) := by
  unfold verifyOTP
  simp only [hget]

theorem verifyOTP_run_exceeded {s : OtpStore} {id w : String} {t : Nat}
    {e : OtpEntry} (hget : getEntry s id = some e)
    (hexp : ¬ e.expirationTime < t) (hatt : e.attempts ≥ e.maxAttempts) :
    verifyOTP s id w t =
      (⟨false, "Maximum verification attempts exceeded", none⟩, deleteEntry s id) := by
  unfold verifyOTP
  simp only [hget, if_neg hexp, if_pos hatt]

theorem sweepOTP_of_expired {s : OtpStore} {id : String} {ft : Nat} {e : OtpEntry}
    (hget : getEntry s id = some e) (hexp : e.expirationTime < ft) :
    sweepOTP s id ft = deleteEntry s id := by
  unfold sweepOTP
  simp only [hget, if_pos hexp]

theorem verifyOTP_run_wrong {s : OtpStore} {id w : String} {t : Nat}
    {e : OtpEntry} (hget : getEntry s id = some e)
    (hexp : ¬ e.expirationTime < t) (hatt : ¬ e.attempts ≥ e.maxAttempts)
    (hw : (e.otp == w) = false) :
    verifyOTP s id w t =
      (⟨false, "Invalid OTP", some (e.maxAttempts - (e.attempts + 1))⟩,
       setEntry s id { e with attempts := e.attempts + 1 }) := by
  unfold verifyOTP
  simp only [hget, if_neg hexp, if_neg hatt, hw, Bool.false_eq_true, if_neg,
    not_false_eq_true]

end OtpUtil

/-! ## Claim theorems -/

/-- C7: the claim says a non-6-digit code fails `InvalidFormat` and the
code check is delegated to the OTP Service. The controller only checks
`otp.length !== 6` and never consults the OTP store: the 6-character
non-digit code `"12345a"` — which the repository's own
`validateOTPFormat` rejects — is accepted, the phone is marked verified
and the flags are returned, with no OTP record in existence. -/
theorem verifyOTP_accepts_any_six_chars :
    OtpUtil.validateOTPFormat (some "12345a") 6 = false ∧
    (AuthController.verifyOTP otpSampleDb "01712345678" (some "12345a") "phone").1 =
      Except.ok ⟨true, false, false⟩ ∧
    (findById (AuthController.verifyOTP otpSampleDb "01712345678"
        (some "12345a") "phone").2 1).map User.phoneVerified = some true := by
  decide

/-- C8: the claim says both `password` and `refreshTokens` are excluded
from default-mode reads. In the schema only `password` carries
`select: false`; `refreshTokens` does not, so a default-mode query returns
it (even though the controllers use `+refreshTokens` selections that
presuppose exclusion). -/
theorem default_projection_includes_refreshTokens :
    includedByDefault "password" = false ∧
    includedByDefault "refreshTokens" = true ∧
    includedWithPlusSelect "refreshTokens" = true ∧
    includedWithPlusSelect "password" = true := by
  decide

/-- C6 counterexample: the claim says every verify strictly after the TTL
fails with `Expired`. `storeOTP` also schedules a `setTimeout` cleanup that
deletes the expired record 1 s after the TTL: a verify at `t0 + 11` minutes
— strictly after the TTL, past the cleanup's fire time — finds the record
already purged and returns `OTP not found or expired`, not
`OTP has expired`. -/
theorem otp_swept_after_grace_not_expired :
    0 + 10 * 60 * 1000 < 660000 ∧
    (OtpUtil.verifyOTP
        (OtpUtil.storeOTPAsSeenAt [] "01712345678" "123456" 10 0 660000)
        "01712345678" "123456" 660000).1 =
      ⟨false, "OTP not found or expired", none⟩ ∧
    (OtpUtil.verifyOTP
        (OtpUtil.storeOTPAsSeenAt [] "01712345678" "123456" 10 0 660000)
        "01712345678" "123456" 660000).1.message ≠ "OTP has expired" := by
  decide

/-- C6 amended: a verify strictly after the 10-minute TTL of a stored OTP,
made before the scheduled cleanup fires (1 s after the TTL), fails with the
`OTP has expired` result regardless of the supplied code and purges the
record; a verify at or after the cleanup's fire time finds the record
already purged and fails with `OTP not found or expired`; in either case
the verify fails and the record is absent afterwards. -/
theorem otp_expired_after_ttl (s : OtpUtil.OtpStore) (id otp provided : String)
    (t0 t : Nat) (h : t0 + 10 * 60 * 1000 < t) :
    (t < t0 + 10 * 60 * 1000 + 1000 →
      OtpUtil.verifyOTP (OtpUtil.storeOTPAsSeenAt s id otp 10 t0 t) id provided t =
        (⟨false, "OTP has expired", none⟩,
         OtpUtil.deleteEntry (OtpUtil.storeOTP s id otp 10 t0) id)) ∧
    (t0 + 10 * 60 * 1000 + 1000 ≤ t →
      OtpUtil.verifyOTP (OtpUtil.storeOTPAsSeenAt s id otp 10 t0 t) id provided t =
        (⟨false, "OTP not found or expired", none⟩,
         OtpUtil.deleteEntry (OtpUtil.storeOTP s id otp 10 t0) id)) ∧
    (OtpUtil.verifyOTP (OtpUtil.storeOTPAsSeenAt s id otp 10 t0 t) id provided t).1.success
      = false ∧
    OtpUtil.getEntry
      (OtpUtil.verifyOTP (OtpUtil.storeOTPAsSeenAt s id otp 10 t0 t) id provided t).2 id
      = none := by
  have hget : OtpUtil.getEntry (OtpUtil.storeOTP s id otp 10 t0) id =
      some { otp := otp, expirationTime := t0 + 10 * 60 * 1000,
             attempts := 0, maxAttempts := 3 } := by
    unfold OtpUtil.storeOTP
    exact OtpUtil.getEntry_setEntry_same ..
  have hdel : OtpUtil.getEntry
      (OtpUtil.deleteEntry (OtpUtil.storeOTP s id otp 10 t0) id) id = none :=
    OtpUtil.getEntry_deleteEntry_same ..
  have case1 : t < t0 + 10 * 60 * 1000 + 1000 →
      OtpUtil.verifyOTP (OtpUtil.storeOTPAsSeenAt s id otp 10 t0 t) id provided t =
        (⟨false, "OTP has expired", none⟩,
         OtpUtil.deleteEntry (OtpUtil.storeOTP s id otp 10 t0) id) := by
    intro hb
    have hseen : OtpUtil.storeOTPAsSeenAt s id otp 10 t0 t =
        OtpUtil.storeOTP s id otp 10 t0 := by
      unfold OtpUtil.storeOTPAsSeenAt
      rw [if_pos hb]
    rw [hseen]
    unfold OtpUtil.verifyOTP
    rw [hget]
    simp only [if_pos h]
  have case2 : t0 + 10 * 60 * 1000 + 1000 ≤ t →
      OtpUtil.verifyOTP (OtpUtil.storeOTPAsSeenAt s id otp 10 t0 t) id provided t =
        (⟨false, "OTP not found or expired", none⟩,
         OtpUtil.deleteEntry (OtpUtil.storeOTP s id otp 10 t0) id) := by
    intro hb
    have hseen : OtpUtil.storeOTPAsSeenAt s id otp 10 t0 t =
        OtpUtil.deleteEntry (OtpUtil.storeOTP s id otp 10 t0) id := by
      unfold OtpUtil.storeOTPAsSeenAt
      rw [if_neg (by omega)]
      exact OtpUtil.sweepOTP_of_expired hget
        (show t0 + 10 * 60 * 1000 < t0 + 10 * 60 * 1000 + 1000 by omega)
    rw [hseen]
    exact OtpUtil.verifyOTP_run_not_found hdel
  refine ⟨case1, case2, ?_, ?_⟩
  · by_cases hb : t < t0 + 10 * 60 * 1000 + 1000
    · rw [case1 hb]
    · rw [case2 (by omega)]
  · by_cases hb : t < t0 + 10 * 60 * 1000 + 1000
    · rw [case1 hb]
      exact hdel
    · rw [case2 (by omega)]
      exact hdel

/-- C6 amended witness: concrete evaluation at an empty store, identifier
`01712345678`, code `123456`, creation time 0; a verify at time 600001 —
inside the 1 s grace window — fails `Expired` and purges, and a verify at
time 700000 — after the cleanup has fired — fails `NotFound`. -/
theorem otp_expired_after_ttl_witness :
    OtpUtil.verifyOTP (OtpUtil.storeOTPAsSeenAt [] "01712345678" "123456" 10 0 600001)
        "01712345678" "123456" 600001 =
      (⟨false, "OTP has expired", none⟩,
       OtpUtil.deleteEntry (OtpUtil.storeOTP [] "01712345678" "123456" 10 0)
         "01712345678") ∧
    OtpUtil.verifyOTP (OtpUtil.storeOTPAsSeenAt [] "01712345678" "123456" 10 0 700000)
        "01712345678" "123456" 700000 =
      (⟨false, "OTP not found or expired", none⟩,
       OtpUtil.deleteEntry (OtpUtil.storeOTP [] "01712345678" "123456" 10 0)
         "01712345678") ∧
    OtpUtil.getEntry
      (OtpUtil.verifyOTP (OtpUtil.storeOTPAsSeenAt [] "01712345678" "123456" 10 0 600001)
        "01712345678" "123456" 600001).2 "01712345678" = none :=
  ⟨(otp_expired_after_ttl [] "01712345678" "123456" "123456" 0 600001
      (by decide)).1 (by decide),
   (otp_expired_after_ttl [] "01712345678" "123456" "123456" 0 700000
      (by decide)).2.1 (by decide),
   (otp_expired_after_ttl [] "01712345678" "123456" "123456" 0 600001
      (by decide)).2.2.2⟩

/-- C5 counterexample: the claim says the 3rd wrong code yields
`AttemptsExceeded` and purges the record, so a later verify with the
correct code gives `NotFound`. In the code the attempt bound is checked
before the increment: the 3rd wrong attempt still returns `Invalid OTP`
(with 0 attempts left) and leaves the record stored, and the next verify —
with the correct original code — returns `AttemptsExceeded`, not
`NotFound`. -/
theorem third_wrong_otp_attempt_not_terminal :
    (OtpUtil.verifyOTP (OtpUtil.verifyOTP (OtpUtil.verifyOTP
        (OtpUtil.storeOTP [] "01712345678" "123456" 10 0)
        "01712345678" "000000" 1).2 "01712345678" "000000" 2).2
        "01712345678" "000000" 3).1 = ⟨false, "Invalid OTP", some 0⟩ ∧
    (OtpUtil.verifyOTP (OtpUtil.verifyOTP (OtpUtil.verifyOTP
        (OtpUtil.storeOTP [] "01712345678" "123456" 10 0)
        "01712345678" "000000" 1).2 "01712345678" "000000" 2).2
        "01712345678" "000000" 3).1.message ≠
      "Maximum verification attempts exceeded" ∧
    OtpUtil.getEntry (OtpUtil.verifyOTP (OtpUtil.verifyOTP (OtpUtil.verifyOTP
        (OtpUtil.storeOTP [] "01712345678" "123456" 10 0)
        "01712345678" "000000" 1).2 "01712345678" "000000" 2).2
        "01712345678" "000000" 3).2 "01712345678" ≠ none ∧
    (OtpUtil.verifyOTP (OtpUtil.verifyOTP (OtpUtil.verifyOTP (OtpUtil.verifyOTP
        (OtpUtil.storeOTP [] "01712345678" "123456" 10 0)
        "01712345678" "000000" 1).2 "01712345678" "000000" 2).2
        "01712345678" "000000" 3).2 "01712345678" "123456" 4).1 =
      ⟨false, "Maximum verification attempts exceeded", none⟩ := by
  decide

/-- C5 amended: each failed-but-not-terminal comparison increments the
attempt counter and reports the attempts remaining (2, 1, 0); after the 3rd
wrong code the record is still stored with its counter at the bound, and it
is the next verify — even with the correct original code — that fails
`AttemptsExceeded` and purges the record, after which any verify returns
`NotFound`. -/
theorem otp_attempts_bound (s : OtpUtil.OtpStore) (id code w1 w2 w3 c c2 : String)
    (t0 t1 t2 t3 t4 t5 : Nat)
    (hw1 : (code == w1) = false) (hw2 : (code == w2) = false)
    (hw3 : (code == w3) = false)
    (ht1 : t1 ≤ t0 + 10 * 60 * 1000) (ht2 : t2 ≤ t0 + 10 * 60 * 1000)
    (ht3 : t3 ≤ t0 + 10 * 60 * 1000) (ht4 : t4 ≤ t0 + 10 * 60 * 1000) :
    OtpUtil.verifyOTP (otpChain0 s id code t0) id w1 t1 =
      (⟨false, "Invalid OTP", some 2⟩, otpChain1 s id code t0) ∧
    OtpUtil.verifyOTP (otpChain1 s id code t0) id w2 t2 =
      (⟨false, "Invalid OTP", some 1⟩, otpChain2 s id code t0) ∧
    OtpUtil.verifyOTP (otpChain2 s id code t0) id w3 t3 =
      (⟨false, "Invalid OTP", some 0⟩, otpChain3 s id code t0) ∧
    OtpUtil.getEntry (otpChain3 s id code t0) id = some (otpEntryAfter code t0 3) ∧
    OtpUtil.verifyOTP (otpChain3 s id code t0) id c t4 =
      (⟨false, "Maximum verification attempts exceeded", none⟩,
       OtpUtil.deleteEntry (otpChain3 s id code t0) id) ∧
    OtpUtil.verifyOTP (OtpUtil.deleteEntry (otpChain3 s id code t0) id) id c2 t5 =
      (⟨false, "OTP not found or expired", none⟩,
       OtpUtil.deleteEntry (otpChain3 s id code t0) id) := by
  have hget0 : OtpUtil.getEntry (otpChain0 s id code t0) id = some (otpEntryAfter code t0 0) := by
    unfold otpChain0 OtpUtil.storeOTP otpEntryAfter
    exact OtpUtil.getEntry_setEntry_same ..
  have hget1 : OtpUtil.getEntry (otpChain1 s id code t0) id = some (otpEntryAfter code t0 1) := by
    unfold otpChain1
    exact OtpUtil.getEntry_setEntry_same ..
  have hget2 : OtpUtil.getEntry (otpChain2 s id code t0) id = some (otpEntryAfter code t0 2) := by
    unfold otpChain2
    exact OtpUtil.getEntry_setEntry_same ..
  have hget3 : OtpUtil.getEntry (otpChain3 s id code t0) id = some (otpEntryAfter code t0 3) := by
    unfold otpChain3
    exact OtpUtil.getEntry_setEntry_same ..
  refine ⟨?_, ?_, ?_, hget3, ?_, ?_⟩
  · rw [OtpUtil.verifyOTP_run_wrong hget0 (by simp [otpEntryAfter]; omega)
      (by simp [otpEntryAfter]) hw1]
    rfl
  · rw [OtpUtil.verifyOTP_run_wrong hget1 (by simp [otpEntryAfter]; omega)
      (by simp [otpEntryAfter]) hw2]
    rfl
  · rw [OtpUtil.verifyOTP_run_wrong hget2 (by simp [otpEntryAfter]; omega)
      (by simp [otpEntryAfter]) hw3]
    rfl
  · exact OtpUtil.verifyOTP_run_exceeded hget3 (by simp [otpEntryAfter]; omega)
      (by simp [otpEntryAfter])
  · exact OtpUtil.verifyOTP_run_not_found
      (OtpUtil.getEntry_deleteEntry_same (otpChain3 s id code t0) id)

/-- C5 amended witness: concrete evaluation for identifier `01712345678`,
code `123456`, wrong code `000000` supplied three times at times 1, 2, 3,
followed by the correct code at times 4 and 5. -/
theorem otp_attempts_bound_witness :
    OtpUtil.verifyOTP (otpChain0 [] "01712345678" "123456" 0) "01712345678" "000000" 1 =
      (⟨false, "Invalid OTP", some 2⟩, otpChain1 [] "01712345678" "123456" 0) ∧
    OtpUtil.verifyOTP (otpChain1 [] "01712345678" "123456" 0) "01712345678" "000000" 2 =
      (⟨false, "Invalid OTP", some 1⟩, otpChain2 [] "01712345678" "123456" 0) ∧
    OtpUtil.verifyOTP (otpChain2 [] "01712345678" "123456" 0) "01712345678" "000000" 3 =
      (⟨false, "Invalid OTP", some 0⟩, otpChain3 [] "01712345678" "123456" 0) ∧
    OtpUtil.getEntry (otpChain3 [] "01712345678" "123456" 0) "01712345678" =
      some (otpEntryAfter "123456" 0 3) ∧
    OtpUtil.verifyOTP (otpChain3 [] "01712345678" "123456" 0) "01712345678" "123456" 4 =
      (⟨false, "Maximum verification attempts exceeded", none⟩,
       OtpUtil.deleteEntry (otpChain3 [] "01712345678" "123456" 0) "01712345678") ∧
    OtpUtil.verifyOTP
        (OtpUtil.deleteEntry (otpChain3 [] "01712345678" "123456" 0) "01712345678")
        "01712345678" "123456" 5 =
      (⟨false, "OTP not found or expired", none⟩,
       OtpUtil.deleteEntry (otpChain3 [] "01712345678" "123456" 0) "01712345678") :=
  otp_attempts_bound [] "01712345678" "123456" "000000" "000000" "000000" "123456"
    "123456" 0 1 2 3 4 5 (by decide) (by decide) (by decide)
    (by decide) (by decide) (by decide) (by decide)

/-- C3 counterexample: the claim says any further login attempt while the
lock is in the future fails `AccountLocked` (423) independent of password
correctness, including a 6th wrong-password attempt. After five wrong
logins (times 1..5) the account carries the lock set by the 5th attempt,
yet a 6th wrong-password attempt at time 6 — inside the lock window —
fails `Invalid credentials` (401), not `AccountLocked` (423), because the
password comparison runs before the lock check. -/
theorem sixth_wrong_attempt_not_account_locked :
    (findById lockoutDbAfter5 1).map User.lockUntil =
      some (some (5 + 2 * 60 * 60 * 1000)) ∧
    (findById lockoutDbAfter5 1).map User.loginAttempts = some 5 ∧
    (AuthController.login lockoutDbAfter5 6 (some "k@x.com") none "WrongPass").1 =
      Except.error invalidCredentialsError ∧
    (AuthController.login lockoutDbAfter5 6 (some "k@x.com") none "WrongPass").1 ≠
      Except.error accountLockedError ∧
    invalidCredentialsError.statusCode = 401 ∧
    accountLockedError.statusCode = 423 := by
  decide

/-- C3 amended: starting from 0 failed attempts, five consecutive
wrong-password logins each fail `Invalid credentials` (401) and the 5th
sets `lockUntil = now + 2h`; while the lock is in the future a
wrong-password attempt still fails `Invalid credentials` (401) — only a
correct-password attempt fails `AccountLocked` (423); once `lockUntil` has
passed, a correct-password login succeeds and clears both `loginAttempts`
and `lockUntil`. -/
theorem lockout_threshold (u : User) (nid : Nat) (w pw : String)
    (n1 n2 n3 n4 n5 n6 n7 : Nat)
    (hst : u.status = Status.active)
    (hpw : bcryptCompare pw u.password = true)
    (hw : bcryptCompare w u.password = false)
    (h6 : n6 < n5 + 2 * 60 * 60 * 1000)
    (h7 : n5 + 2 * 60 * 60 * 1000 ≤ n7) :
    AuthController.login ⟨[{ u with loginAttempts := 0, lockUntil := none }], nid⟩
        n1 (some u.email) none w =
      (Except.error invalidCredentialsError,
       ⟨[{ u with loginAttempts := 1, lockUntil := none }], nid⟩) ∧
    AuthController.login ⟨[{ u with loginAttempts := 1, lockUntil := none }], nid⟩
        n2 (some u.email) none w =
      (Except.error invalidCredentialsError,
       ⟨[{ u with loginAttempts := 2, lockUntil := none }], nid⟩) ∧
    AuthController.login ⟨[{ u with loginAttempts := 2, lockUntil := none }], nid⟩
        n3 (some u.email) none w =
      (Except.error invalidCredentialsError,
       ⟨[{ u with loginAttempts := 3, lockUntil := none }], nid⟩) ∧
    AuthController.login ⟨[{ u with loginAttempts := 3, lockUntil := none }], nid⟩
        n4 (some u.email) none w =
      (Except.error invalidCredentialsError,
       ⟨[{ u with loginAttempts := 4, lockUntil := none }], nid⟩) ∧
    AuthController.login ⟨[{ u with loginAttempts := 4, lockUntil := none }], nid⟩
        n5 (some u.email) none w =
      (Except.error invalidCredentialsError,
       ⟨[{ u with loginAttempts := 5, lockUntil := some (n5 + 2 * 60 * 60 * 1000) }], nid⟩) ∧
    AuthController.login ⟨[{ u with loginAttempts := 5, lockUntil := some (n5 + 2 * 60 * 60 * 1000) }], nid⟩
        n6 (some u.email) none w =
      (Except.error invalidCredentialsError,
       ⟨[{ u with loginAttempts := 6, lockUntil := some (n5 + 2 * 60 * 60 * 1000) }], nid⟩) ∧
    (AuthController.login ⟨[{ u with loginAttempts := 5, lockUntil := some (n5 + 2 * 60 * 60 * 1000) }], nid⟩
        n6 (some u.email) none pw).1 = Except.error accountLockedError ∧
    AuthController.login ⟨[{ u with loginAttempts := 5, lockUntil := some (n5 + 2 * 60 * 60 * 1000) }], nid⟩
        n7 (some u.email) none pw =
      (Except.ok (generateTokens u.id n7),
       ⟨[{ u with loginAttempts := 0, lockUntil := none, refreshTokens := u.refreshTokens ++ [(generateTokens u.id n7).2], lastLogin := some n7 }], nid⟩) := by
  refine ⟨?_, ?_, ?_, ?_, ?_, ?_, ?_, ?_⟩
  · exact login_singleton_wrong { u with loginAttempts := 0, lockUntil := none }
      nid n1 w hw
  · exact login_singleton_wrong { u with loginAttempts := 1, lockUntil := none }
      nid n2 w hw
  · exact login_singleton_wrong { u with loginAttempts := 2, lockUntil := none }
      nid n3 w hw
  · exact login_singleton_wrong { u with loginAttempts := 3, lockUntil := none }
      nid n4 w hw
  · exact login_singleton_wrong { u with loginAttempts := 4, lockUntil := none }
      nid n5 w hw
  · have e := login_singleton_wrong { u with loginAttempts := 5, lockUntil := some (n5 + 2 * 60 * 60 * 1000) } nid n6 w hw
    rw [@incLoginAttempts_while_locked { u with loginAttempts := 5, lockUntil := some (n5 + 2 * 60 * 60 * 1000) } n6
      (n5 + 2 * 60 * 60 * 1000) rfl h6] at e
    exact e
  · rw [login_singleton_locked { u with loginAttempts := 5, lockUntil := some (n5 + 2 * 60 * 60 * 1000) } nid n6 pw hpw
      (by simp [isLocked]; omega)]
  · exact login_singleton_correct_reset { u with loginAttempts := 5, lockUntil := some (n5 + 2 * 60 * 60 * 1000) } nid n7 pw hpw
      (by simp [isLocked]; omega) hst (by simp)

/-- C3 amended witness: the concrete account `lockoutSampleUser` with wrong
password `WrongPass`, correct password `Secret123`, the five wrong attempts
at times 1..5, the in-window attempts at time 6 and the post-window attempt
exactly when the lock lapses. -/
theorem lockout_threshold_witness :
    (AuthController.login ⟨[{ lockoutSampleUser with loginAttempts := 5, lockUntil := some (5 + 2 * 60 * 60 * 1000) }], 2⟩
        6 (some lockoutSampleUser.email) none "Secret123").1 =
      Except.error accountLockedError :=
  (lockout_threshold lockoutSampleUser 2 "WrongPass" "Secret123" 1 2 3 4 5 6
    (5 + 2 * 60 * 60 * 1000) rfl (by decide) (by decide) (by decide)
    (by decide)).2.2.2.2.2.2.1

/-- C4: the failed-login response for a non-existent account and for an
existing, active, unlocked account with a wrong password is the same
`Invalid credentials` error with the same message and status 401, so a
caller cannot distinguish the two cases. -/
theorem login_error_indistinguishable (db1 db2 : DB) (now1 now2 : Nat)
    (e1 p1 e2 p2 : Option String) (pw1 pw2 : String) (u : User)
    (h1 : findByEmailOrPhone db1 e1 p1 = none)
    (h2 : findByEmailOrPhone db2 e2 p2 = some u)
    (hpw : bcryptCompare pw2 u.password = false)
    (hlock : isLocked u now2 = false)
    (hst : u.status = Status.active) :
    (AuthController.login db1 now1 e1 p1 pw1).1 =
      Except.error invalidCredentialsError ∧
    (AuthController.login db2 now2 e2 p2 pw2).1 =
      Except.error invalidCredentialsError ∧
    (AuthController.login db1 now1 e1 p1 pw1).1 =
      (AuthController.login db2 now2 e2 p2 pw2).1 ∧
    invalidCredentialsError.message = "Invalid credentials" ∧
    invalidCredentialsError.statusCode = 401 := by
  have r1 : (AuthController.login db1 now1 e1 p1 pw1).1 =
      Except.error invalidCredentialsError := by
    unfold AuthController.login
    simp only [h1]
  have r2 : (AuthController.login db2 now2 e2 p2 pw2).1 =
      Except.error invalidCredentialsError := by
    unfold AuthController.login
    simp only [h2]
    rw [if_pos hpw]
  exact ⟨r1, r2, r1.trans r2.symm, rfl, rfl⟩

/-- C4 witness: an empty store with email `ghost@x.com` versus the concrete
account `c4SampleUser` with a wrong password — both responses evaluate to
the identical `Invalid credentials` 401 error. -/
theorem login_error_indistinguishable_witness :
    (AuthController.login ⟨[], 1⟩ 10 (some "ghost@x.com") none "pw").1 =
      Except.error invalidCredentialsError ∧
    (AuthController.login c4SampleDb 10 (some "c4@x.com") none "WrongPass").1 =
      Except.error invalidCredentialsError ∧
    (AuthController.login ⟨[], 1⟩ 10 (some "ghost@x.com") none "pw").1 =
      (AuthController.login c4SampleDb 10 (some "c4@x.com") none "WrongPass").1 ∧
    invalidCredentialsError.message = "Invalid credentials" ∧
    invalidCredentialsError.statusCode = 401 :=
  login_error_indistinguishable ⟨[], 1⟩ c4SampleDb 10 10 (some "ghost@x.com") none
    (some "c4@x.com") none "pw" "WrongPass" c4SampleUser rfl (by decide)
    (by decide) (by decide) rfl

/-- C1: for a refresh call whose token's signature verifies against the
refresh secret and decodes to an existing account: when the token is not a
member of the stored `refreshTokens` the call fails `Invalid refresh token`
(401) with the store unchanged; when it is a member the call succeeds, the
persisted collection has the old token filtered out and the newly minted
refresh token appended (so the old token is gone and the new one present),
and presenting the same token again — at any later time — fails
`Invalid refresh token`. -/
theorem refresh_rotation_single_use (db : DB) (now now2 : Nat) (t : Jwt) (u : User)
    (hsig : t.secret = jwtRefreshSecret) (hexp : now < t.exp)
    (hfind : findById db t.id = some u) (hiat : t.iat ≠ now) :
    (t ∉ u.refreshTokens →
      AuthController.refreshToken db now (some t) =
        (Except.error invalidRefreshTokenError, db)) ∧
    (t ∈ u.refreshTokens →
      (AuthController.refreshToken db now (some t)).1 =
        Except.ok (generateTokens u.id now) ∧
      findById (AuthController.refreshToken db now (some t)).2 t.id =
        some { u with refreshTokens :=
          (u.refreshTokens.filter (fun x => x ≠ t)) ++ [(generateTokens u.id now).2] } ∧
      t ∉ (u.refreshTokens.filter (fun x => x ≠ t)) ++ [(generateTokens u.id now).2] ∧
      (generateTokens u.id now).2 ∈
        (u.refreshTokens.filter (fun x => x ≠ t)) ++ [(generateTokens u.id now).2] ∧
      (AuthController.refreshToken (AuthController.refreshToken db now (some t)).2
        now2 (some t)).1 = Except.error invalidRefreshTokenError) := by
  have hver : jwtVerify t jwtRefreshSecret now = some t.id := by
    unfold jwtVerify
    rw [if_pos ⟨hsig, hexp⟩]
  have hid : u.id = t.id := findById_id_eq hfind
  constructor
  · intro hnot
    unfold AuthController.refreshToken
    simp only [hver, hfind]
    rw [if_neg hnot]
  · intro hmem
    have hrun := refreshToken_succeeds_of_mem hsig hexp hfind hmem
    have hnot2 : t ∉ (u.refreshTokens.filter (fun x => x ≠ t)) ++
        [(generateTokens u.id now).2] := by
      intro hin
      rcases List.mem_append.mp hin with hin1 | hin2
      · have := (List.mem_filter.mp hin1).2
        simp at this
      · have ht : t = (generateTokens u.id now).2 := by simpa using hin2
        exact hiat (congrArg Jwt.iat ht)
    have hfound2 : findById (AuthController.refreshToken db now (some t)).2 t.id =
        some { u with refreshTokens :=
          (u.refreshTokens.filter (fun x => x ≠ t)) ++ [(generateTokens u.id now).2] } := by
      rw [hrun]
      rw [← hid]
      exact findById_updateUser rfl (by rw [hid, hfind]; rfl)
    refine ⟨?_, hfound2, hnot2, ?_, ?_⟩
    · rw [hrun]
    · exact List.mem_append_right _ (by simp)
    · exact refreshToken_fails_of_not_mem hfound2 hnot2

/-- C1 witness: the concrete account `c1SampleUser`, whose only stored
session is `c1Token` (minted at time 0), refreshed at time 1000 and
re-presented at time 2000. -/
theorem refresh_rotation_single_use_witness :
    (AuthController.refreshToken c1SampleDb 1000 (some c1Token)).1 =
      Except.ok (generateTokens 1 1000) ∧
    findById (AuthController.refreshToken c1SampleDb 1000 (some c1Token)).2 1 =
      some { c1SampleUser with refreshTokens :=
        (c1SampleUser.refreshTokens.filter (fun x => x ≠ c1Token)) ++
          [(generateTokens 1 1000).2] } ∧
    c1Token ∉ (c1SampleUser.refreshTokens.filter (fun x => x ≠ c1Token)) ++
      [(generateTokens 1 1000).2] ∧
    (generateTokens 1 1000).2 ∈
      (c1SampleUser.refreshTokens.filter (fun x => x ≠ c1Token)) ++
        [(generateTokens 1 1000).2] ∧
    (AuthController.refreshToken (AuthController.refreshToken c1SampleDb 1000
      (some c1Token)).2 2000 (some c1Token)).1 =
      Except.error invalidRefreshTokenError :=
  (refresh_rotation_single_use c1SampleDb 1000 2000 c1Token c1SampleUser rfl
    (by decide) (by decide) (by decide)).2 (by decide)

/-- C9: `forgotPassword` on an unknown email fails `NotFound` (404) and
stores nothing; on an existing account with failing delivery it fails
`DeliveryError` (500) and the persisted account has both reset fields
cleared again. -/
theorem forgotPassword_rollback_and_notfound (db1 db2 : DB) (now1 now2 : Nat)
    (email1 email2 raw1 raw2 : String) (ok : Bool) (u : User)
    (h1 : db1.users.find? (fun v => v.email == email1) = none)
    (h2 : db2.users.find? (fun v => v.email == email2) = some u) :
    AuthController.forgotPassword db1 now1 email1 raw1 ok =
      (Except.error noUserWithEmailError, db1) ∧
    (AuthController.forgotPassword db2 now2 email2 raw2 false).1 =
      Except.error emailSendError ∧
    (findById (AuthController.forgotPassword db2 now2 email2 raw2 false).2 u.id).map
      (fun v => (v.passwordResetToken, v.passwordResetExpires)) = some (none, none) ∧
    noUserWithEmailError.statusCode = 404 ∧
    emailSendError.statusCode = 500 := by
  have hrun : AuthController.forgotPassword db2 now2 email2 raw2 false =
      (Except.error emailSendError,
       updateUser (updateUser db2 u.id
           { u with passwordResetToken := some (sha256Hex raw2),
                    passwordResetExpires := some (now2 + 10 * 60 * 1000) }) u.id
         { u with passwordResetToken := none, passwordResetExpires := none }) := by
    unfold AuthController.forgotPassword
    simp only [h2]
    rfl
  have hsome0 : (findById db2 u.id).isSome :=
    findById_isSome_of_mem (List.mem_of_find?_eq_some h2)
  have hfind1 : findById (updateUser db2 u.id
      { u with passwordResetToken := some (sha256Hex raw2),
               passwordResetExpires := some (now2 + 10 * 60 * 1000) }) u.id =
      some { u with passwordResetToken := some (sha256Hex raw2),
                    passwordResetExpires := some (now2 + 10 * 60 * 1000) } :=
    findById_updateUser rfl hsome0
  have hfind2 : findById (updateUser (updateUser db2 u.id
      { u with passwordResetToken := some (sha256Hex raw2),
               passwordResetExpires := some (now2 + 10 * 60 * 1000) }) u.id
      { u with passwordResetToken := none, passwordResetExpires := none }) u.id =
      some { u with passwordResetToken := none, passwordResetExpires := none } :=
    findById_updateUser rfl (by rw [hfind1]; rfl)
  refine ⟨?_, ?_, ?_, rfl, rfl⟩
  · unfold AuthController.forgotPassword
    simp only [h1]
  · rw [hrun]
  · rw [hrun]
    rw [hfind2]
    rfl

/-- C9 witness: the concrete account `c9SampleUser` with a failing email
sender, and the unknown address `nobody@x.com` against the same store. -/
theorem forgotPassword_rollback_and_notfound_witness :
    AuthController.forgotPassword c9SampleDb 50 "nobody@x.com" "tok1" false =
      (Except.error noUserWithEmailError, c9SampleDb) ∧
    (AuthController.forgotPassword c9SampleDb 50 "c9@x.com" "tok2" false).1 =
      Except.error emailSendError ∧
    (findById (AuthController.forgotPassword c9SampleDb 50 "c9@x.com" "tok2" false).2 1).map
      (fun v => (v.passwordResetToken, v.passwordResetExpires)) = some (none, none) ∧
    noUserWithEmailError.statusCode = 404 ∧
    emailSendError.statusCode = 500 :=
  forgotPassword_rollback_and_notfound c9SampleDb c9SampleDb 50 50 "nobody@x.com"
    "c9@x.com" "tok1" "tok2" false c9SampleUser (by decide) (by decide)

/-- C10: registering with a fresh email and phone preserves pairwise
uniqueness of emails and phones, and a second registration reusing either
the email or the phone of the first fails `Conflict` (400) with the account
collection unchanged. -/
theorem register_uniqueness (db : DB) (now1 now2 : Nat) (inp inp2 : RegisterInput)
    (huniq : UniqueAccounts db)
    (hfresh : db.users.any (fun v => v.email == inp.email || v.phone == inp.phone) = false)
    (hdup : inp2.email = inp.email ∨ inp2.phone = inp.phone) :
    UniqueAccounts (AuthController.register db now1 inp).2 ∧
    AuthController.register (AuthController.register db now1 inp).2 now2 inp2 =
      (Except.error userExistsError, (AuthController.register db now1 inp).2) ∧
    (AuthController.register (AuthController.register db now1 inp).2 now2 inp2).2.users =
      (AuthController.register db now1 inp).2.users ∧
    userExistsError.statusCode = 400 := by
  have hrun : AuthController.register db now1 inp =
      (Except.ok (AuthController.regUser db now1 inp, (generateTokens db.nextId now1).1,
         (generateTokens db.nextId now1).2),
       ⟨db.users ++ [AuthController.regUser db now1 inp], db.nextId + 1⟩) := by
    unfold AuthController.register
    rw [if_neg (by simp [hfresh])]
  have hfresh' : ∀ a ∈ db.users, a.email ≠ inp.email ∧ a.phone ≠ inp.phone := by
    intro a ha
    constructor
    · intro he
      have : db.users.any (fun v => v.email == inp.email || v.phone == inp.phone) = true :=
        List.any_eq_true.mpr ⟨a, ha, by simp [he]⟩
      rw [hfresh] at this
      cases this
    · intro hp
      have : db.users.any (fun v => v.email == inp.email || v.phone == inp.phone) = true :=
        List.any_eq_true.mpr ⟨a, ha, by simp [hp]⟩
      rw [hfresh] at this
      cases this
  have huniq2 : UniqueAccounts ⟨db.users ++ [AuthController.regUser db now1 inp], db.nextId + 1⟩ := by
    simp only [UniqueAccounts]
    rw [List.pairwise_append]
    refine ⟨huniq, by simp, ?_⟩
    intro a ha b hb
    have hb' : b = AuthController.regUser db now1 inp := by simpa using hb
    subst hb'
    exact ⟨by simpa [AuthController.regUser] using (hfresh' a ha).1,
           by simpa [AuthController.regUser] using (hfresh' a ha).2⟩
  have hdup2 : ((db.users ++ [AuthController.regUser db now1 inp]).any
      (fun v => v.email == inp2.email || v.phone == inp2.phone)) = true := by
    apply List.any_eq_true.mpr
    refine ⟨AuthController.regUser db now1 inp, by simp, ?_⟩
    rcases hdup with he | hp
    · simp [AuthController.regUser, he]
    · simp [AuthController.regUser, hp]
  have hsecond : AuthController.register
      ⟨db.users ++ [AuthController.regUser db now1 inp], db.nextId + 1⟩ now2 inp2 =
      (Except.error userExistsError,
       ⟨db.users ++ [AuthController.regUser db now1 inp], db.nextId + 1⟩) := by
    unfold AuthController.register
    rw [if_pos hdup2]
  refine ⟨?_, ?_, ?_, rfl⟩
  · rw [hrun]
    exact huniq2
  · rw [hrun]
    exact hsecond
  · rw [hrun, hsecond]

/-- C10 witness: registering `r@x.com` / `01955555555` into an empty store,
then attempting a second registration with the same email (different
phone). -/
theorem register_uniqueness_witness :
    UniqueAccounts (AuthController.register ⟨[], 1⟩ 7
      ⟨"Rafi", "r@x.com", "01955555555", "Secret123"⟩).2 ∧
    AuthController.register (AuthController.register ⟨[], 1⟩ 7
        ⟨"Rafi", "r@x.com", "01955555555", "Secret123"⟩).2 8
        ⟨"Rafi2", "r@x.com", "01966666666", "Other456"⟩ =
      (Except.error userExistsError,
       (AuthController.register ⟨[], 1⟩ 7
         ⟨"Rafi", "r@x.com", "01955555555", "Secret123"⟩).2) ∧
    (AuthController.register (AuthController.register ⟨[], 1⟩ 7
        ⟨"Rafi", "r@x.com", "01955555555", "Secret123"⟩).2 8
        ⟨"Rafi2", "r@x.com", "01966666666", "Other456"⟩).2.users =
      (AuthController.register ⟨[], 1⟩ 7
        ⟨"Rafi", "r@x.com", "01955555555", "Secret123"⟩).2.users ∧
    userExistsError.statusCode = 400 :=
  register_uniqueness ⟨[], 1⟩ 7 8 ⟨"Rafi", "r@x.com", "01955555555", "Secret123"⟩
    ⟨"Rafi2", "r@x.com", "01966666666", "Other456"⟩
    (by simp [UniqueAccounts]) (by decide) (Or.inl rfl)

/-- C2: after a successful `changePassword` or `resetPassword`, the
persisted `refreshTokens` collection is exactly the one newly issued
refresh token; any token of that account other than the new one — in
particular every refresh token issued before the change — fails a
subsequent refresh with `Invalid refresh token`, and only the newly issued
token refreshes successfully. -/
theorem password_change_invalidates_sessions (db : DB) (now now3 m : Nat)
    (uid : Nat) (u v : User) (cur newPw raw pw2 : String)
    (hfind : findById db uid = some u)
    (hcur : bcryptCompare cur u.password = true)
    (hreset : db.users.find? (AuthController.resetLookup (sha256Hex raw) now3) = some v)
    (hm1 : m < now + jwtRefreshExpire)
    (hm2 : m < now3 + jwtRefreshExpire) :
    (AuthController.changePassword db now uid cur newPw).1 =
      Except.ok (generateTokens u.id now) ∧
    findById (AuthController.changePassword db now uid cur newPw).2 u.id =
      some { u with password := bcryptHash newPw,
                    refreshTokens := [(generateTokens u.id now).2] } ∧
    (∀ told : Jwt, told.id = u.id → told ≠ (generateTokens u.id now).2 →
      (AuthController.refreshToken (AuthController.changePassword db now uid cur newPw).2
        m (some told)).1 = Except.error invalidRefreshTokenError) ∧
    (AuthController.refreshToken (AuthController.changePassword db now uid cur newPw).2
      m (some (generateTokens u.id now).2)).1 = Except.ok (generateTokens u.id m) ∧
    (AuthController.resetPassword db now3 raw pw2 pw2).1 =
      Except.ok (generateTokens v.id now3) ∧
    findById (AuthController.resetPassword db now3 raw pw2 pw2).2 v.id =
      some { v with password := bcryptHash pw2, passwordResetToken := none,
                    passwordResetExpires := none,
                    refreshTokens := [(generateTokens v.id now3).2] } ∧
    (∀ told : Jwt, told.id = v.id → told ≠ (generateTokens v.id now3).2 →
      (AuthController.refreshToken (AuthController.resetPassword db now3 raw pw2 pw2).2
        m (some told)).1 = Except.error invalidRefreshTokenError) ∧
    (AuthController.refreshToken (AuthController.resetPassword db now3 raw pw2 pw2).2
      m (some (generateTokens v.id now3).2)).1 = Except.ok (generateTokens v.id m) := by
  have hid : u.id = uid := findById_id_eq hfind
  have hrunC : AuthController.changePassword db now uid cur newPw =
      (Except.ok (generateTokens u.id now),
       updateUser (updateUser db u.id
           { u with password := bcryptHash newPw, refreshTokens := [] }) u.id
         { u with password := bcryptHash newPw,
                  refreshTokens := [(generateTokens u.id now).2] }) := by
    unfold AuthController.changePassword
    simp only [hfind]
    rw [if_neg (by simp [hcur])]
    rfl
  have hsomeC : (findById db u.id).isSome := by
    rw [hid, hfind]
    rfl
  have hfindC1 : findById (updateUser db u.id
      { u with password := bcryptHash newPw, refreshTokens := [] }) u.id =
      some { u with password := bcryptHash newPw, refreshTokens := [] } :=
    findById_updateUser rfl hsomeC
  have hfindC2 : findById (updateUser (updateUser db u.id
      { u with password := bcryptHash newPw, refreshTokens := [] }) u.id
      { u with password := bcryptHash newPw,
               refreshTokens := [(generateTokens u.id now).2] }) u.id =
      some { u with password := bcryptHash newPw,
                    refreshTokens := [(generateTokens u.id now).2] } :=
    findById_updateUser rfl (by rw [hfindC1]; rfl)
  have hvin : v ∈ db.users := List.mem_of_find?_eq_some hreset
  have hrunR : AuthController.resetPassword db now3 raw pw2 pw2 =
      (Except.ok (generateTokens v.id now3),
       updateUser (updateUser db v.id
           { v with password := bcryptHash pw2, passwordResetToken := none,
                    passwordResetExpires := none, refreshTokens := [] }) v.id
         { v with password := bcryptHash pw2, passwordResetToken := none,
                  passwordResetExpires := none,
                  refreshTokens := [(generateTokens v.id now3).2] }) := by
    unfold AuthController.resetPassword
    rw [if_neg (by simp)]
    simp only [hreset]
    rfl
  have hsomeR : (findById db v.id).isSome := findById_isSome_of_mem hvin
  have hfindR1 : findById (updateUser db v.id
      { v with password := bcryptHash pw2, passwordResetToken := none,
               passwordResetExpires := none, refreshTokens := [] }) v.id =
      some { v with password := bcryptHash pw2, passwordResetToken := none,
                    passwordResetExpires := none, refreshTokens := [] } :=
    findById_updateUser rfl hsomeR
  have hfindR2 : findById (updateUser (updateUser db v.id
      { v with password := bcryptHash pw2, passwordResetToken := none,
               passwordResetExpires := none, refreshTokens := [] }) v.id
      { v with password := bcryptHash pw2, passwordResetToken := none,
               passwordResetExpires := none,
               refreshTokens := [(generateTokens v.id now3).2] }) v.id =
      some { v with password := bcryptHash pw2, passwordResetToken := none,
                    passwordResetExpires := none,
                    refreshTokens := [(generateTokens v.id now3).2] } :=
    findById_updateUser rfl (by rw [hfindR1]; rfl)
  refine ⟨?_, ?_, ?_, ?_, ?_, ?_, ?_, ?_⟩
  · rw [hrunC]
  · rw [hrunC]
    exact hfindC2
  · intro told htid htne
    rw [hrunC]
    have hfound : findById (updateUser (updateUser db u.id
        { u with password := bcryptHash newPw, refreshTokens := [] }) u.id
        { u with password := bcryptHash newPw,
                 refreshTokens := [(generateTokens u.id now).2] }) told.id =
        some { u with password := bcryptHash newPw,
                      refreshTokens := [(generateTokens u.id now).2] } := by
      rw [htid]
      exact hfindC2
    refine refreshToken_fails_of_not_mem hfound ?_
    simp only [List.mem_singleton]
    exact htne
  · rw [hrunC]
    rw [@refreshToken_succeeds_of_mem _ (generateTokens u.id now).2 _ m rfl hm1 hfindC2
      (by simp)]
  · rw [hrunR]
  · rw [hrunR]
    exact hfindR2
  · intro told htid htne
    rw [hrunR]
    have hfound : findById (updateUser (updateUser db v.id
        { v with password := bcryptHash pw2, passwordResetToken := none,
                 passwordResetExpires := none, refreshTokens := [] }) v.id
        { v with password := bcryptHash pw2, passwordResetToken := none,
                 passwordResetExpires := none,
                 refreshTokens := [(generateTokens v.id now3).2] }) told.id =
        some { v with password := bcryptHash pw2, passwordResetToken := none,
                      passwordResetExpires := none,
                      refreshTokens := [(generateTokens v.id now3).2] } := by
      rw [htid]
      exact hfindR2
    refine refreshToken_fails_of_not_mem hfound ?_
    simp only [List.mem_singleton]
    exact htne
  · rw [hrunR]
    rw [@refreshToken_succeeds_of_mem _ (generateTokens v.id now3).2 _ m rfl hm2 hfindR2
      (by simp)]

/-- C2 witness: the concrete account `c2SampleUser` (one outstanding session
`c2OldToken`, pending reset token `resettok`): password changed and reset at
time 100, refresh attempts at time 200 with the stale and the fresh token. -/
theorem password_change_invalidates_sessions_witness :
    (AuthController.changePassword c2SampleDb 100 1 "Secret123" "NewSecret1").1 =
      Except.ok (generateTokens 1 100) ∧
    (AuthController.refreshToken
      (AuthController.changePassword c2SampleDb 100 1 "Secret123" "NewSecret1").2
      200 (some c2OldToken)).1 = Except.error invalidRefreshTokenError ∧
    (AuthController.refreshToken
      (AuthController.changePassword c2SampleDb 100 1 "Secret123" "NewSecret1").2
      200 (some (generateTokens 1 100).2)).1 = Except.ok (generateTokens 1 200) ∧
    (AuthController.resetPassword c2SampleDb 100 "resettok" "NewSecret2" "NewSecret2").1 =
      Except.ok (generateTokens 1 100) ∧
    (AuthController.refreshToken
      (AuthController.resetPassword c2SampleDb 100 "resettok" "NewSecret2" "NewSecret2").2
      200 (some c2OldToken)).1 = Except.error invalidRefreshTokenError ∧
    (AuthController.refreshToken
      (AuthController.resetPassword c2SampleDb 100 "resettok" "NewSecret2" "NewSecret2").2
      200 (some (generateTokens 1 100).2)).1 = Except.ok (generateTokens 1 200) := by
  have h := password_change_invalidates_sessions c2SampleDb 100 100 200 1
    c2SampleUser c2SampleUser "Secret123" "NewSecret1" "resettok" "NewSecret2"
    (by decide) (by decide) (by decide) (by decide) (by decide)
  exact ⟨h.1, h.2.2.1 c2OldToken rfl (by decide), h.2.2.2.1, h.2.2.2.2.1,
    h.2.2.2.2.2.2.1 c2OldToken rfl (by decide), h.2.2.2.2.2.2.2⟩

end BloodCare
